import Mathlib

/-
Shallow embedding of the sample-processing core of main.c
(PSoC 6 low-power SAR ADC thermistor / ambient-light example).

Machine integers are modelled as Int; the reduction modulo a power of two
is written out explicitly at the two places where the C code narrows or
wraps a value (the (int16) cast of a raw FIFO value and the int16 store of
the intermediate light level; the int32 product in get_light_intensity is
also wrapped, matching two complement behaviour of the target).  The C
arithmetic right shift on int32 is floor division, which is Int division
(Int.ediv) by a power of two; the left shift is multiplication.  Inside
the filter the int32 accumulator never comes near the int32 bounds for
reachable inputs, so its arithmetic is exact.
-/

/-- Channel tag of the thermistor sense input (THERMISTOR_SENSOR_CHANNEL). -/
def THERMISTOR_SENSOR_CHANNEL : Nat := 1

/-- Channel tag of the reference resistor input (REF_RESISTOR_CHANNEL). -/
def REF_RESISTOR_CHANNEL : Nat := 0

/-- Channel tag of the ambient light sensor input (ALS_SENSOR_CHANNEL). -/
def ALS_SENSOR_CHANNEL : Nat := 2

/-- Reference resistor value in ohm (R_REFERENCE). -/
def R_REFERENCE : ℝ := 10000

/-- Beta constant of the thermistor in kelvin (B_CONSTANT). -/
def B_CONSTANT : ℝ := 3380

/-- Thermistor model constant (R_INFINITY). -/
def R_INFINITY : ℝ := 0.1192855

/-- Zero kelvin in degree C (ABSOLUTE_ZERO). -/
def ABSOLUTE_ZERO : ℝ := -273.15

/-- ALS offset in percent (ALS_OFFSET). -/
def ALS_OFFSET : Int := 20

/-- ALS percentage below which the user LED is turned on (ALS_LOW_THRESHOLD). -/
def ALS_LOW_THRESHOLD : Nat := 45

/-- ALS percentage above which the user LED is turned off (ALS_HIGH_THRESHOLD). -/
def ALS_HIGH_THRESHOLD : Nat := 55

/-- Raw ALS reading that marks a fully dark ambient (ALS_DARK_AMBIENT_RAW_DATA). -/
def ALS_DARK_AMBIENT_RAW_DATA : Nat := 0xFFF0

/-- Value passed to the IIR filter for a fully dark ambient (ALS_DARK_AMBIENT_DATA). -/
def ALS_DARK_AMBIENT_DATA : Int := 0

/-- The C (int16) conversion: reduce to the signed 16-bit range by a
two complement wrap, as the target hardware does. -/
def toInt16 (x : Int) : Int := (x + 32768) % 65536 - 32768

/-- The C int32 wrap: reduce to the signed 32-bit range by a two
complement wrap, as the target hardware does. -/
def toInt32 (x : Int) : Int := (x + 2147483648) % 4294967296 - 2147483648

/-- The channel specific IIR attenuation weight used by low_pass_filter:
160 for the thermistor and reference resistor channels, 4 for the ALS
channel.  Only tags 0, 1, 2 are ever passed. -/
def lpf_weight (data_source : Nat) : Int :=
  if data_source = ALS_SENSOR_CHANNEL then 4 else 160

/-- Embedding of low_pass_filter from main.c.  The global array
filt_var[CHANNEL_COUNT] is passed in and returned explicitly; the C
switch over the channel tag becomes an if chain with the same cases and
the same default (k = 0, state untouched).  input <<= 8 is input * 256;
the arithmetic right shifts are divisions by 256; the rounding term
(filt_var & 0x80) >> 7 (bit 7 of the updated accumulator) is written
filt_var / 128 % 2. -/
def low_pass_filter (input0 : Int) (data_source : Nat) (filt_var : Nat → Int) :
    Int × (Nat → Int) :=
  let input := input0 * 256
  if data_source = THERMISTOR_SENSOR_CHANNEL then
    let fv := filt_var THERMISTOR_SENSOR_CHANNEL
      + ((input - filt_var THERMISTOR_SENSOR_CHANNEL) / 256) * 160
    (fv / 256 + fv / 128 % 2, Function.update filt_var THERMISTOR_SENSOR_CHANNEL fv)
  else if data_source = REF_RESISTOR_CHANNEL then
    let fv := filt_var REF_RESISTOR_CHANNEL
      + ((input - filt_var REF_RESISTOR_CHANNEL) / 256) * 160
    (fv / 256 + fv / 128 % 2, Function.update filt_var REF_RESISTOR_CHANNEL fv)
  else if data_source = ALS_SENSOR_CHANNEL then
    let fv := filt_var ALS_SENSOR_CHANNEL
      + ((input - filt_var ALS_SENSOR_CHANNEL) / 256) * 4
    (fv / 256 + fv / 128 % 2, Function.update filt_var ALS_SENSOR_CHANNEL fv)
  else (0, filt_var)

/-- The value the C code stores into the int16 variable als_level before
the clamps in get_light_intensity: ((adc_count * 100) >> 10) - ALS_OFFSET,
with the negative-input clamp applied first.  The int32 product wraps and
the int16 store truncates, exactly as on the target. -/
def als_pre (adc_count : Int) : Int :=
  let a := if adc_count < 0 then 0 else adc_count
  toInt16 (toInt32 (a * 100) / 1024 - ALS_OFFSET)

/-- Embedding of get_light_intensity from main.c: clamp negative input to
0, scale, then clamp the int16 level to [0, 100] and return it as the
uint8 percentage. -/
def get_light_intensity (adc_count : Int) : Nat :=
  let als_level := als_pre adc_count
  let als_level := if 100 < als_level then 100 else als_level
  let als_level := if als_level < 0 then 0 else als_level
  als_level.toNat

open Classical in
/-- Embedding of get_temperature from main.c.  The C code computes with
doubles and performs the division and the logarithm unguarded; in this
exact-real embedding a numerically undefined operation (division by a
zero ref_count, logarithm of a non-positive ratio, division by a zero
logarithm) is flagged as none.  A none result therefore marks an input on
which the source hits an undefined numeric operation with no guard,
saturation or error path in front of it. -/
noncomputable def get_temperature (therm_count ref_count : Int) : Option ℝ :=
  if ref_count = 0 then none
  else
    let rThermistor : ℝ := (therm_count : ℝ) * R_REFERENCE / (ref_count : ℝ)
    if rThermistor / R_INFINITY ≤ 0 then none
    else if Real.log (rThermistor / R_INFINITY) = 0 then none
    else some (B_CONSTANT / Real.log (rThermistor / R_INFINITY) + ABSOLUTE_ZERO)

/-- The per-sample state of the processing loop in main: the first_run
flags and the filtered_data results (locals of main) and the global IIR
accumulators filt_var.  The C arrays have three cells, indexed by the
channel tags 0, 1, 2; they are modelled as functions on Nat of which only
those indices are ever used. -/
structure MainState where
  first_run : Nat → Bool
  filt_var : Nat → Int
  filtered_data : Nat → Int

/-- State at the start of main: first_run = {true, true, true}, the
global filt_var zero initialised; filtered_data is an uninitialised local
in C and is modelled as zero (no claim depends on its initial value). -/
def init_state : MainState :=
  { first_run := fun _ => true
    filt_var := fun _ => 0
    filtered_data := fun _ => 0 }

/-- One iteration of the FIFO drain loop body in main (lines 244-274):
dispatch one sample (channel tag, raw 16-bit value) through the first-run
initialisation or the IIR filter.  On the first sample of a channel the
ALS dark test uses the raw value; on later samples the raw value is cast
to int16 and handed to low_pass_filter. -/
def process_sample (s : MainState) (channel : Nat) (value : Nat) : MainState :=
  if s.first_run channel then
    if channel = ALS_SENSOR_CHANNEL ∧ ALS_DARK_AMBIENT_RAW_DATA ≤ value then
      { first_run := Function.update s.first_run channel false
        filt_var := Function.update s.filt_var channel ALS_DARK_AMBIENT_DATA
        filtered_data := Function.update s.filtered_data channel ALS_DARK_AMBIENT_DATA }
    else
      { first_run := Function.update s.first_run channel false
        filt_var := Function.update s.filt_var channel ((value : Int) * 256)
        filtered_data := Function.update s.filtered_data channel (value : Int) }
  else
    let r := low_pass_filter (toInt16 (value : Int)) channel s.filt_var
    { s with
        filt_var := r.2
        filtered_data := Function.update s.filtered_data channel r.1 }

/-- Draining a whole FIFO batch: fold process_sample over the snapshot of
buffered samples, in order. -/
def process_samples (s : MainState) (batch : List (Nat × Nat)) : MainState :=
  batch.foldl (fun s p => process_sample s p.1 p.2) s

/-- Number of samples of a trace that are processed through the cold-start
(first_run) branch for a given channel. -/
def cold_hits : MainState → List (Nat × Nat) → Nat → Nat
  | _, [], _ => 0
  | s, p :: rest, channel =>
      (if p.1 = channel ∧ s.first_run channel then 1 else 0)
        + cold_hits (process_sample s p.1 p.2) rest channel

/-- Modelled from the spec (for comparison with process_sample, claim C1):
the pipeline step as the spec describes it, with the dark coercion applied
to the ALS raw value on every call, not only the first, before the value
enters the filter path. -/
def process_sample_c1spec (s : MainState) (channel : Nat) (value : Nat) : MainState :=
  let value := if channel = ALS_SENSOR_CHANNEL ∧ ALS_DARK_AMBIENT_RAW_DATA ≤ value
               then 0 else value
  process_sample s channel value

/-- Embedding of the LED hysteresis in main (lines 283-287): write ON when
the intensity is under ALS_LOW_THRESHOLD, write OFF when it is over
ALS_HIGH_THRESHOLD, otherwise leave the pin as it is.  true is ON. -/
def led_update (led : Bool) (light_intensity : Nat) : Bool :=
  if light_intensity < ALS_LOW_THRESHOLD then true
  else if ALS_HIGH_THRESHOLD < light_intensity then false
  else led

/-- Embedding of the display rate divider in main (lines 290-299): on the
cycle where the counter is 4 a status line is printed and the counter is
cleared, otherwise the counter is incremented.  The Bool is true when the
line is emitted. -/
def display_step (display_delay : Nat) : Nat × Bool :=
  if display_delay = 4 then (0, true) else (display_delay + 1, false)

/-- Iterate display_step a number of times, returning the final counter
and how many status lines were emitted. -/
def display_run : Nat → Nat → Nat × Nat
  | 0, d => (d, 0)
  | n + 1, d =>
      let r := display_step d
      let rest := display_run n r.1
      (rest.1, (if r.2 then 1 else 0) + rest.2)

/-- The state carried across wake cycles by main: the sample-processing
state, the LED pin and the display counter. -/
structure SysState where
  main : MainState
  led : Bool
  display_delay : Nat

/-- One pass of the infinite loop in main (lines 231-300), from one
deep-sleep wake to the next: if the FIFO interrupt flag is set, drain the
snapshot of buffered samples, convert the filtered ALS reading to a light
intensity, drive the LED hysteresis and step the display counter; if the
wake was for an unrelated reason (flag not set) do nothing.  The Bool of
the result is true when a status line is emitted on this wake; the line
content is determined by get_temperature and get_light_intensity applied
to the filtered readings of the resulting state. -/
def loop_iteration (fifo_intr_flag : Bool) (batch : List (Nat × Nat)) (s : SysState) :
    SysState × Bool :=
  if fifo_intr_flag then
    let m := process_samples s.main batch
    let light_intensity := get_light_intensity (m.filtered_data ALS_SENSOR_CHANNEL)
    let led := led_update s.led light_intensity
    let disp := display_step s.display_delay
    ({ main := m, led := led, display_delay := disp.1 }, disp.2)
  else (s, false)

/-- Bit 7 of a two complement integer, written as in the source
((x & 0x80) >> 7, embedded as x / 128 % 2), equals 1 exactly when the low
byte of x is at least 128. -/
theorem bit7_eq (x : Int) : x / 128 % 2 = if 128 ≤ x % 256 then 1 else 0 := by
  split <;> omega

/-- Claim C4: when get_temperature is called with ref_count = 0 the
division by zero in the resistance computation is reached unguarded: the
conversion has no guard, saturation or error path for this input, so the
embedded conversion yields none for every therm_count. -/
theorem c4_ref_count_zero_division (therm_count : Int) :
    get_temperature therm_count 0 = none := by
  simp [get_temperature]

/-- Claim C7: the LED is turned on exactly when the light intensity is
below 45, turned off exactly when it is above 55, and left unchanged for
any intensity in the inclusive dead band [45, 55]; in particular an LED
that is on stays on and an LED that is off stays off throughout the band. -/
theorem c7_hysteresis (led : Bool) (light_intensity : Nat) :
    (light_intensity < 45 → led_update led light_intensity = true)
    ∧ (55 < light_intensity → led_update led light_intensity = false)
    ∧ (45 ≤ light_intensity → light_intensity ≤ 55 →
        led_update led light_intensity = led) := by
  refine ⟨fun h => ?_, fun h => ?_, fun h1 h2 => ?_⟩ <;>
    simp only [led_update, ALS_LOW_THRESHOLD, ALS_HIGH_THRESHOLD] <;>
    split_ifs <;> first | rfl | omega

/-- Witness for c7_hysteresis at concrete inputs. -/
theorem c7_hysteresis_witness :
    led_update true 50 = true ∧ led_update false 50 = false
    ∧ led_update false 30 = true ∧ led_update true 60 = false :=
  ⟨(c7_hysteresis true 50).2.2 (by decide) (by decide),
   (c7_hysteresis false 50).2.2 (by decide) (by decide),
   (c7_hysteresis false 30).1 (by decide),
   (c7_hysteresis true 60).2.1 (by decide)⟩

/-- Claim C8: starting from any reachable counter value (the counter
starts at 0 and stays in [0, 4]), the display counter stays in [0, 4], is
incremented on every drain cycle where it has not yet reached 4, emits
exactly one status line per 5 calls of the reporting step - on the cycle
where the counter equals 4 - and is then reset to 0. -/
theorem c8_display_counter (d : Nat) (h : d ≤ 4) :
    (display_step d).1 ≤ 4
    ∧ (d < 4 → display_step d = (d + 1, false))
    ∧ (d = 4 → display_step d = (0, true))
    ∧ display_run 5 d = (d, 1) := by
  interval_cases d <;> decide

/-- Witness for c8_display_counter at the initial counter value. -/
theorem c8_display_counter_witness :
    (display_step 0).1 ≤ 4
    ∧ (0 < 4 → display_step 0 = (0 + 1, false))
    ∧ (0 = 4 → display_step 0 = (0, true))
    ∧ display_run 5 0 = (0, 1) :=
  c8_display_counter 0 (by decide)

/-- Claim C9: a wake of the main loop with the FIFO interrupt flag not
set performs no processing: the filter state, the filtered readings, the
LED and the display counter are unchanged and no status line is emitted. -/
theorem c9_spurious_wake (batch : List (Nat × Nat)) (s : SysState) :
    loop_iteration false batch s = (s, false) := rfl

/-- A value already inside the signed 16-bit range is unchanged by the
int16 narrowing. -/
theorem toInt16_eq_self (x : Int) (h1 : -32768 ≤ x) (h2 : x ≤ 32767) :
    toInt16 x = x := by
  simp only [toInt16]
  omega

/-- A value already inside the signed 32-bit range is unchanged by the
int32 wrap. -/
theorem toInt32_eq_self (x : Int) (h1 : -2147483648 ≤ x) (h2 : x ≤ 2147483647) :
    toInt32 x = x := by
  simp only [toInt32]
  omega

/-- On the inputs where neither the int32 product nor the int16 store
narrows (0 ≤ adc_count ≤ 335749), the pre-clamp level is exactly
(adc_count * 100) / 1024 - 20. -/
theorem als_pre_formula (adc : Int) (h1 : 0 ≤ adc) (h2 : adc ≤ 335749) :
    als_pre adc = adc * 100 / 1024 - 20 := by
  have hnn : ¬ adc < 0 := by omega
  simp only [als_pre, ALS_OFFSET, if_neg hnn]
  rw [toInt32_eq_self (adc * 100) (by omega) (by omega)]
  exact toInt16_eq_self _ (by omega) (by omega)

/-- Counterexample for claim C2: the returned percentage does not
saturate at 100 for all large inputs; the int16 store of the intermediate
level wraps, so the largest representable int32 input and the first input
past the wrap both yield 0. -/
theorem c2_counterexample :
    get_light_intensity 335750 = 0 ∧ get_light_intensity 2147483647 = 0 := by
  decide

/-- Claim C2 (amended): every negative input yields 0, and the percentage
saturates at 100 on the whole saturation range [1229, 335749] that the
int16 intermediate can represent; past 335749 the int16 store wraps and
the output is no longer 100. -/
theorem c2_light_intensity_clamps :
    (∀ adc_count : Int, adc_count < 0 → get_light_intensity adc_count = 0)
    ∧ (∀ adc_count : Int, 1229 ≤ adc_count → adc_count ≤ 335749 →
        get_light_intensity adc_count = 100) := by
  constructor
  · intro adc h
    simp only [get_light_intensity, als_pre, toInt16, toInt32, ALS_OFFSET, if_pos h]
    split_ifs <;> omega
  · intro adc h1 h2
    simp only [get_light_intensity]
    rw [als_pre_formula adc (by omega) (by omega)]
    split_ifs <;> omega

/-- Witness for c2_light_intensity_clamps at concrete inputs. -/
theorem c2_light_intensity_clamps_witness :
    get_light_intensity (-5) = 0 ∧ get_light_intensity 1229 = 100 :=
  ⟨c2_light_intensity_clamps.1 (-5) (by decide),
   c2_light_intensity_clamps.2 1229 (by decide) (by decide)⟩

/-- Counterexample for claim C3: the pre-clamp level is not monotonic
non-decreasing over the whole input range; the int16 store wraps between
335749 and 335750. -/
theorem c3_counterexample : ¬ als_pre 335749 ≤ als_pre 335750 := by
  decide

/-- Claim C3 (amended): the pre-clamp level is monotonic non-decreasing
on the range where the int16 store does not wrap (all inputs up to
335749), and the returned percentage always lies in [0, 100]. -/
theorem c3_monotone_and_range :
    (∀ a b : Int, a ≤ b → b ≤ 335749 → als_pre a ≤ als_pre b)
    ∧ (∀ adc_count : Int, get_light_intensity adc_count ≤ 100) := by
  constructor
  · intro a b hab hb
    by_cases ha : a < 0
    · have hA : als_pre a = -20 := by
        simp only [als_pre, ALS_OFFSET, if_pos ha]
        decide
      by_cases hbneg : b < 0
      · have hB : als_pre b = -20 := by
          simp only [als_pre, ALS_OFFSET, if_pos hbneg]
          decide
        omega
      · have hB : als_pre b = b * 100 / 1024 - 20 := als_pre_formula b (by omega) hb
        rw [hA, hB]
        omega
    · have hA : als_pre a = a * 100 / 1024 - 20 := als_pre_formula a (by omega) (by omega)
      have hB : als_pre b = b * 100 / 1024 - 20 := als_pre_formula b (by omega) hb
      rw [hA, hB]
      omega
  · intro adc
    simp only [get_light_intensity]
    split_ifs <;> omega

/-- Witness for c3_monotone_and_range at concrete inputs. -/
theorem c3_monotone_and_range_witness :
    als_pre 1000 ≤ als_pre 2000 ∧ get_light_intensity 500 ≤ 100 :=
  ⟨c3_monotone_and_range.1 1000 2000 (by decide) (by decide),
   c3_monotone_and_range.2 500⟩

/-- Claim C5: in steady state, one filter call for any of the three
channels updates exactly that channel of the accumulator array by
accumulator += ((input << 8) - accumulator) >> 8) * weight, with weight
160 for the thermistor and reference resistor channels and 4 for the ALS
channel, and returns the integer part of the updated accumulator rounded
to nearest: (accumulator >> 8) plus 1 exactly when the fractional bit of
value 0x80 is set. -/
theorem c5_steady_state (input : Int) (filt_var : Nat → Int) (channel : Nat)
    (h : channel < 3) :
    low_pass_filter input channel filt_var =
      ((filt_var channel + ((input * 256 - filt_var channel) / 256) * lpf_weight channel) / 256
        + (if 128 ≤ (filt_var channel
            + ((input * 256 - filt_var channel) / 256) * lpf_weight channel) % 256
           then 1 else 0),
       Function.update filt_var channel
         (filt_var channel + ((input * 256 - filt_var channel) / 256) * lpf_weight channel)) := by
  interval_cases channel <;>
    simp [low_pass_filter, lpf_weight, THERMISTOR_SENSOR_CHANNEL, REF_RESISTOR_CHANNEL,
      ALS_SENSOR_CHANNEL, bit7_eq]

/-- Witness for c5_steady_state on the ALS channel with a zero
accumulator. -/
theorem c5_steady_state_witness :
    low_pass_filter 100 2 (fun _ => 0) =
      (((0 : Int) + ((100 * 256 - 0) / 256) * lpf_weight 2) / 256
        + (if (128 : Int) ≤ ((0 : Int) + ((100 * 256 - 0) / 256) * lpf_weight 2) % 256
           then 1 else 0),
       Function.update (fun _ => (0 : Int)) 2
         ((0 : Int) + ((100 * 256 - 0) / 256) * lpf_weight 2)) := by
  have h := c5_steady_state 100 (fun _ => 0) 2 (by decide)
  simpa using h

/-- Applying process_sample for one channel clears that channel first_run
flag and leaves every other channel flag unchanged. -/
theorem first_run_process (s : MainState) (c v ch : Nat) :
    (process_sample s c v).first_run ch = if ch = c then false else s.first_run ch := by
  by_cases hc : ch = c
  · subst hc
    simp only [process_sample]
    split_ifs with h1 h2
    · simp [Function.update_apply]
    · simp [Function.update_apply]
    · simp only [if_pos rfl]
      simpa using h1
  · simp only [process_sample]
    split_ifs with h1 h2
    · simp [Function.update_apply, hc]
    · simp [Function.update_apply, hc]
    · simp [if_neg hc]

/-- Characterisation of the cold-start count of a trace: a trace hits the
cold-start branch of a channel exactly once when the channel flag is
still set and the trace contains a sample for the channel, and never
otherwise. -/
theorem cold_hits_eq (batch : List (Nat × Nat)) (s : MainState) (ch : Nat) :
    cold_hits s batch ch =
      if s.first_run ch ∧ batch.any (fun p => p.1 = ch) then 1 else 0 := by
  induction batch generalizing s with
  | nil => simp [cold_hits]
  | cons p rest ih =>
      obtain ⟨c1, v1⟩ := p
      simp only [cold_hits]
      by_cases h1 : c1 = ch
      · subst h1
        have hfr : (process_sample s c1 v1).first_run c1 = false := by
          rw [first_run_process, if_pos rfl]
        by_cases h2 : s.first_run c1 = true
        · rw [ih]
          simp [h2, hfr]
        · rw [ih]
          simp [h2, hfr]
      · have hfr : (process_sample s c1 v1).first_run ch = s.first_run ch := by
          rw [first_run_process, if_neg (fun hh => h1 hh.symm)]
        rw [ih, hfr]
        simp only [List.any_cons]
        have hd : decide (c1 = ch) = false := decide_eq_false h1
        simp only [hd, Bool.false_or]
        simp [h1]

/-- Claim C6: for every channel, the first sample ever processed returns
the (possibly dark-coerced) input unmodified as the filtered value, seeds
the accumulator of that channel at input << 8 (the dark substitute 0 is
seeded as 0 = 0 << 8), clears the first_run flag, and - since a cleared
flag is never set again - the cold-start branch is taken exactly once per
channel over any trace from process start that contains a sample for the
channel, and never more. -/
theorem c6_cold_start (s : MainState) (channel value : Nat) (batch : List (Nat × Nat))
    (h : s.first_run channel = true) :
    ((process_sample s channel value).filtered_data channel
        = (if channel = ALS_SENSOR_CHANNEL ∧ ALS_DARK_AMBIENT_RAW_DATA ≤ value
           then ALS_DARK_AMBIENT_DATA else (value : Int))
      ∧ (process_sample s channel value).filt_var channel
        = (if channel = ALS_SENSOR_CHANNEL ∧ ALS_DARK_AMBIENT_RAW_DATA ≤ value
           then ALS_DARK_AMBIENT_DATA else (value : Int)) * 256
      ∧ (process_sample s channel value).first_run channel = false)
    ∧ cold_hits init_state batch channel
        = (if batch.any (fun p => p.1 = channel) then 1 else 0) := by
  constructor
  · simp only [process_sample, h, if_true]
    split_ifs with h2
    · simp [Function.update_apply, ALS_DARK_AMBIENT_DATA]
    · simp [Function.update_apply]
  · rw [cold_hits_eq]
    simp only [init_state]
    split_ifs <;> tauto

/-- Witness for c6_cold_start: the first thermistor sample is returned
unmodified and seeds the accumulator, and a one-sample trace hits the
cold-start branch exactly once. -/
theorem c6_cold_start_witness :
    (process_sample init_state 1 2000).filtered_data 1 = 2000
    ∧ (process_sample init_state 1 2000).filt_var 1 = 2000 * 256
    ∧ (process_sample init_state 1 2000).first_run 1 = false
    ∧ cold_hits init_state [(1, 2000)] 1 = 1 := by
  have h := c6_cold_start init_state 1 2000 [(1, 2000)] (by decide)
  refine ⟨?_, ?_, h.1.2.2, ?_⟩
  · simpa [ALS_SENSOR_CHANNEL] using h.1.1
  · simpa [ALS_SENSOR_CHANNEL] using h.1.2.1
  · simpa using h.2

/-- Claim C10: in steady state (first_run already cleared) the raw 16-bit
sample is cast to a signed 16-bit integer before filtering, so any raw
value of at least 32768 enters the IIR filter as the negative number
value - 65536 for every channel; the filter is applied to that negative
input with no dark handling. -/
theorem c10_steady_negative (s : MainState) (channel value : Nat)
    (h : s.first_run channel = false) (h1 : 32768 ≤ value) (h2 : value < 65536) :
    toInt16 (value : Int) = (value : Int) - 65536
    ∧ toInt16 (value : Int) < 0
    ∧ process_sample s channel value =
        { s with
            filt_var := (low_pass_filter ((value : Int) - 65536) channel s.filt_var).2
            filtered_data := Function.update s.filtered_data channel
              (low_pass_filter ((value : Int) - 65536) channel s.filt_var).1 } := by
  have ht : toInt16 (value : Int) = (value : Int) - 65536 := by
    simp only [toInt16]
    omega
  refine ⟨ht, by rw [ht]; omega, ?_⟩
  simp [process_sample, h, ht]

/-- Witness for c10_steady_negative: after the cold-start sample, an ALS
raw reading of 0xFFF0 enters the filter as -16. -/
theorem c10_steady_negative_witness :
    toInt16 ((0xFFF0 : Nat) : Int) = ((0xFFF0 : Nat) : Int) - 65536
    ∧ toInt16 ((0xFFF0 : Nat) : Int) < 0 := by
  have h := c10_steady_negative (process_sample init_state 2 0) 2 0xFFF0
    (by decide) (by decide) (by decide)
  exact ⟨h.1, h.2.1⟩

/-- Counterexample for claim C1: the dark coercion is not applied on
every call.  Feeding the dark raw value 0xFFF0 to the ALS channel twice
from process start leaves the accumulator at -64 (the second call passes
the int16 cast -16 into the filter), while the spec-modelled pipeline
that coerces on every call leaves it at 0; the two disagree. -/
theorem c1_counterexample :
    (process_sample (process_sample init_state 2 0xFFF0) 2 0xFFF0).filt_var 2 = -64
    ∧ (process_sample_c1spec (process_sample_c1spec init_state 2 0xFFF0) 2 0xFFF0).filt_var 2 = 0
    ∧ (process_sample (process_sample init_state 2 0xFFF0) 2 0xFFF0).filt_var 2
        ≠ (process_sample_c1spec (process_sample_c1spec init_state 2 0xFFF0) 2 0xFFF0).filt_var 2 := by
  refine ⟨by decide, by decide, by decide⟩

/-- Claim C1 (amended): for the AmbientLight channel a raw value at or
above the dark threshold 0xFFF0 is coerced to the dark substitute 0 only
on the cold-start (first) sample of the channel; on every later call the
raw value is cast to int16 and enters the filter uncoerced, so the
accumulator is updated from the input value - 65536 instead of 0. -/
theorem c1_dark_coercion_first_call_only (s : MainState) (value : Nat)
    (hdark : ALS_DARK_AMBIENT_RAW_DATA ≤ value) (hv : value < 65536) :
    (s.first_run ALS_SENSOR_CHANNEL = true →
      (process_sample s ALS_SENSOR_CHANNEL value).filt_var ALS_SENSOR_CHANNEL
          = ALS_DARK_AMBIENT_DATA
      ∧ (process_sample s ALS_SENSOR_CHANNEL value).filtered_data ALS_SENSOR_CHANNEL
          = ALS_DARK_AMBIENT_DATA)
    ∧ (s.first_run ALS_SENSOR_CHANNEL = false →
      (process_sample s ALS_SENSOR_CHANNEL value).filt_var ALS_SENSOR_CHANNEL
        = s.filt_var ALS_SENSOR_CHANNEL
          + ((((value : Int) - 65536) * 256 - s.filt_var ALS_SENSOR_CHANNEL) / 256) * 4) := by
  have ht : toInt16 (value : Int) = (value : Int) - 65536 := by
    simp only [toInt16, ALS_DARK_AMBIENT_RAW_DATA] at *
    omega
  constructor
  · intro h
    simp only [process_sample, h, if_true]
    simp [hdark, Function.update_apply]
  · intro h
    simp only [process_sample, h, Bool.false_eq_true, if_false]
    simp [low_pass_filter, ht, ALS_SENSOR_CHANNEL, THERMISTOR_SENSOR_CHANNEL,
      REF_RESISTOR_CHANNEL, Function.update_apply]

/-- Witness for c1_dark_coercion_first_call_only: the first dark ALS
sample seeds the accumulator with 0; the second leaves it updated from
the uncoerced int16 value. -/
theorem c1_dark_coercion_witness :
    (process_sample init_state 2 0xFFF0).filt_var 2 = 0
    ∧ (process_sample (process_sample init_state 2 0xFFF0) 2 0xFFF0).filt_var 2
        = (process_sample init_state 2 0xFFF0).filt_var 2
          + ((((0xFFF0 : Nat) : Int) - 65536) * 256
              - (process_sample init_state 2 0xFFF0).filt_var 2) / 256 * 4 := by
  have h1 := c1_dark_coercion_first_call_only init_state 0xFFF0 (by decide) (by decide)
  have h2 := c1_dark_coercion_first_call_only (process_sample init_state 2 0xFFF0) 0xFFF0
    (by decide) (by decide)
  exact ⟨h1.1 (by decide) |>.1, h2.2 (by decide)⟩
